import Mathlib

/-!
Verification of the crypto exchange QA test suite (REST candlestick checks and
WebSocket order-book checks) against its natural-language specification.

The Python modules are shallowly embedded as Lean definitions:

* JSON-like values are modelled by `PyVal`; decoded WebSocket messages by
  `Msg`; the unwrapped data payload by `Payload`; order-book delta items by
  `Item` (only the fields the code reads: the update id `u` and the
  previous-update id `pu`).
* The asynchronous receive primitive is modelled by a list of events `Ev`:
  either a message delivered after `dt` abstract time units, or a receive
  timeout.  Python code that calls `ws.recv(timeout=...)` with no exception
  handler is modelled in the `Except PyExc` monad: a timeout event (or an
  exhausted event list) surfaces as `PyExc.timeoutError`, mirroring the
  propagation of `asyncio.TimeoutError`.
* Machine integers are modelled by `Int` (Python integers are unbounded).
-/

namespace CryptoQA

/-- JSON-like dynamic values, as far as the validators inspect them. -/
inductive PyVal where
  | str (s : String)
  | intV (n : Int)
  | listV (xs : List PyVal)

/-- One order-book delta/snapshot item, restricted to the fields the sequence
checker reads: the update id `u` and the previous-update id `pu`.  `none`
models an absent key. -/
structure Item where
  u : Option Int := none
  pu : Option Int := none
deriving DecidableEq

/-- The unwrapped data payload: the fields read by the wait helpers and the
sequence checker.  `data = none` models a missing "data" key, `some []` an
empty list. -/
structure Payload where
  channel : Option String := none
  data : Option (List Item) := none
deriving DecidableEq

/-- A decoded WebSocket message, restricted to the keys the test helpers
read.  A message doubles as a payload when it has no "result" envelope. -/
structure Msg where
  id : Option Int := none
  method : Option String := none
  code : Option Int := none
  channel : Option String := none
  subscription : Option String := none
  result : Option Payload := none
  data : Option (List Item) := none
deriving DecidableEq

/-- Python expression `msg.get("result") or msg`: unwrap the result envelope
when present, otherwise use the message itself as the payload. -/
def Msg.payload (m : Msg) : Payload :=
  match m.result with
  | some r => r
  | none => { channel := m.channel, data := m.data }

/-- One interaction with the receive primitive: either a message delivered
after `dt` abstract time units, or a receive that hits its per-call timeout. -/
inductive Ev where
  | deliver (dt : Nat) (m : Msg)
  | tout
deriving DecidableEq

/-- The Python exceptions observable from the embedded helpers. -/
inductive PyExc where
  | timeoutError
  | assertionError
deriving DecidableEq

/-! ## Character-level regex helpers

The validators use three anchored patterns; they are embedded as
executable recognizers over the character list of a string. -/

/-- Pattern fragment for one or more ASCII digits. -/
def digits1 (cs : List Char) : Bool :=
  !cs.isEmpty && cs.all Char.isDigit

/-- Split a character list at the first dot, if any. -/
def splitDot : List Char → List Char × Option (List Char)
  | [] => ([], none)
  | c :: rest =>
    if c = '.' then ([], some rest)
    else
      let p := splitDot rest
      (c :: p.1, p.2)

/-- Recognizer for the anchored pattern of an unsigned decimal number:
digits, optionally followed by a dot and more digits. -/
def udecChars (cs : List Char) : Bool :=
  match splitDot cs with
  | (a, none) => digits1 a
  | (a, some b) => digits1 a && digits1 b

/-- Recognizer for the unsigned decimal number pattern on strings. -/
def isUnsignedDec (s : String) : Bool :=
  udecChars s.data

/-- Recognizer for the signed-or-unsigned decimal number pattern: an
optional leading minus sign, then an unsigned decimal number. -/
def isSignedDec (s : String) : Bool :=
  match s.data with
  | '-' :: rest => udecChars rest
  | cs => udecChars cs

/-- Recognizer for the anchored unsigned integer pattern: digits only. -/
def isUnsignedInt (s : String) : Bool :=
  digits1 s.data

/-! ## resources/utils/ws_book_utils.py -/

/-- True when the dynamic value is a Python string. -/
def isStrVal : PyVal → Bool
  | .str _ => true
  | _ => false

/-- The string carried by a dynamic value, defaulting to the empty string;
the call sites only reach this after checking `isStrVal`. -/
def strOf : PyVal → String
  | .str s => s
  | _ => ""

/-- Embedding of `is_level_tuple`: a level must be a list of exactly three
strings [price, size, num_orders] matching the three anchored patterns. -/
def is_level_tuple (x : PyVal) : Bool :=
  match x with
  | .listV xs =>
    xs.length == 3 && xs.all isStrVal &&
      (match xs with
       | [a, b, c] =>
         isSignedDec (strOf a) && isUnsignedDec (strOf b) && isUnsignedInt (strOf c)
       | _ => false)
  | _ => false

/-- Embedding of `assert_subscribe_ack` as the predicate deciding whether its
assertions pass: method must be "subscribe", code must be 0, and the channel
must match directly, via the subscription field, or as the bare "book". -/
def assert_subscribe_ack (msg : Msg) (expected_ch : String) : Bool :=
  msg.method == some "subscribe" && msg.code == some 0 &&
    (msg.channel == some expected_ch || msg.subscription == some expected_ch ||
      msg.channel == some "book")

/-- Embedding of `wait_first_data`: scan the stream for the first payload
with a non-empty data list on the expected channel or on the bare "book"
channel; a receive timeout (or a silent stream) raises. -/
def wait_first_data (expected_ch : String) : List Ev → Except PyExc Payload
  | [] => .error .timeoutError
  | .tout :: _ => .error .timeoutError
  | .deliver _ m :: rest =>
    let payload := m.payload
    if payload.data.getD [] = [] then wait_first_data expected_ch rest
    else if payload.channel = some expected_ch ∨ payload.channel = some "book" then
      .ok payload
    else wait_first_data expected_ch rest

/-- Python condition `pu is not None and last_u is not None and pu == last_u`. -/
def puMatches (pu lastU : Option Int) : Bool :=
  match pu, lastU with
  | some p, some l => p == l
  | _, _ => false

/-- Cursor advance `if u is not None: last_u = u`. -/
def advCursor (lastU : Option Int) (u : Option Int) : Option Int :=
  match u with
  | some v => some v
  | none => lastU

/-- The inner for-loop of `find_consistent_delta` over one data list:
returns whether a consistent delta was found, and the cursor after the
processed prefix. -/
def scanItems : Option Int → List Item → Bool × Option Int
  | lastU, [] => (false, lastU)
  | lastU, it :: rest =>
    if puMatches it.pu lastU then (true, lastU)
    else scanItems (advCursor lastU it.u) rest

/-- Python condition deciding that a payload channel is processed:
`not (chv not in channels and chv != "book")`. -/
def acceptChannel (channels : List String) (chv : Option String) : Bool :=
  match chv with
  | some c => channels.contains c || c == "book"
  | none => false

/-- Embedding of `find_consistent_delta`.  The clock starts at `now`; the
deadline is checked at the top of each loop iteration; each delivered
message advances the clock by its `dt`.  A receive timeout (or a silent
stream) surfaces as `PyExc.timeoutError`, because the Python loop calls
`ws.recv(timeout=10)` with no exception handler. -/
def findConsistentDelta (channels : List String) :
    List Ev → Option Int → Nat → Nat → Except PyExc Bool
  | [], _, now, deadline =>
    if now < deadline then .error .timeoutError else .ok false
  | .tout :: _, _, now, deadline =>
    if now < deadline then .error .timeoutError else .ok false
  | .deliver dt m :: rest, lastU, now, deadline =>
    if now < deadline then
      let p := m.payload
      if acceptChannel channels p.channel then
        let r := scanItems lastU (p.data.getD [])
        if r.1 then .ok true
        else findConsistentDelta channels rest r.2 (now + dt) deadline
      else findConsistentDelta channels rest lastU (now + dt) deadline
    else .ok false

/-! ## Specification-side definitions for the sequence consistency property

These definitions follow the wording of the spec (the items processed within
the time budget, and which cursor values a later `pu` is compared against);
they are used to state the correspondence with `findConsistentDelta`. -/

/-- The items the checker processes: flatten the data lists of accepted
payloads delivered while the clock is before the deadline, stopping at a
receive timeout or at the end of the stream. -/
def processedTrace (channels : List String) : List Ev → Nat → Nat → List Item
  | [], _, _ => []
  | .tout :: _, _, _ => []
  | .deliver dt m :: rest, now, deadline =>
    if now < deadline then
      let p := m.payload
      if acceptChannel channels p.channel then
        p.data.getD [] ++ processedTrace channels rest (now + dt) deadline
      else processedTrace channels rest (now + dt) deadline
    else []

/-- The cursor after folding the update ids of a list of items into an
initial cursor. -/
def foldCursor : Option Int → List Item → Option Int
  | c, [] => c
  | c, it :: rest => foldCursor (advCursor c it.u) rest

/-- Rolling-cursor matching, following the amended spec wording: some
processed item carries a `pu` equal to the cursor current when that item is
processed (the most recently seen `u`, or the initial cursor while no `u`
has been seen). -/
def existsCursorMatch : Option Int → List Item → Bool
  | _, [] => false
  | cur, it :: rest =>
    puMatches it.pu cur || existsCursorMatch (advCursor cur it.u) rest

/-- Literal spec wording of the claim: some processed item carries a `pu`
equal to the initial cursor or to the `u` of ANY earlier processed item.
The argument `seen` collects the initial cursor and the earlier update
ids. -/
def existsSeenMatch (seen : List Int) : List Item → Bool
  | [] => false
  | it :: rest =>
    (match it.pu with
     | some p => seen.contains p
     | none => false) ||
      existsSeenMatch
        (match it.u with
         | some v => seen ++ [v]
         | none => seen) rest

/-! ## tests/test_ws_book.py: duplicated helper variants -/

/-- Embedding of the test-file copy `_is_level_tuple`; its body is the
line-for-line duplicate of `is_level_tuple`. -/
def _is_level_tuple (x : PyVal) : Bool :=
  match x with
  | .listV xs =>
    xs.length == 3 && xs.all isStrVal &&
      (match xs with
       | [a, b, c] =>
         isSignedDec (strOf a) && isUnsignedDec (strOf b) && isUnsignedInt (strOf c)
       | _ => false)
  | _ => false

/-- Embedding of the test-file copy `_normalize_subscribe_ack`, again as the
predicate deciding whether its assertions pass. -/
def _normalize_subscribe_ack (msg : Msg) (expected_ch : String) : Bool :=
  msg.method == some "subscribe" && msg.code == some 0 &&
    (msg.channel == some expected_ch || msg.subscription == some expected_ch ||
      msg.channel == some "book")

/-- Embedding of the test-file copy `_wait_first_data`. -/
def _wait_first_data (expected_ch : String) : List Ev → Except PyExc Payload
  | [] => .error .timeoutError
  | .tout :: _ => .error .timeoutError
  | .deliver _ m :: rest =>
    let payload := m.payload
    if payload.data.getD [] = [] then _wait_first_data expected_ch rest
    else if payload.channel = some expected_ch ∨ payload.channel = some "book" then
      .ok payload
    else _wait_first_data expected_ch rest

/-- Variant of `_wait_first_data` that also returns the unconsumed remainder
of the stream; `test_book_delta_sequence` keeps receiving from the same
socket after the first data message. -/
def waitFirstDataRest (expected_ch : String) : List Ev → Except PyExc (Payload × List Ev)
  | [] => .error .timeoutError
  | .tout :: _ => .error .timeoutError
  | .deliver _ m :: rest =>
    let payload := m.payload
    if payload.data.getD [] = [] then waitFirstDataRest expected_ch rest
    else if payload.channel = some expected_ch ∨ payload.channel = some "book" then
      .ok (payload, rest)
    else waitFirstDataRest expected_ch rest

/-- The ack-wait loop inlined in the tests: discard messages until one has
the request id and method "subscribe", then validate it with
`_normalize_subscribe_ack`; return the unconsumed remainder.  A failed
validation raises AssertionError; a receive timeout raises. -/
def waitAckLoop (reqId : Int) (expected_ch : String) : List Ev → Except PyExc (List Ev)
  | [] => .error .timeoutError
  | .tout :: _ => .error .timeoutError
  | .deliver _ m :: rest =>
    if m.id = some reqId ∧ m.method = some "subscribe" then
      if _normalize_subscribe_ack m expected_ch then .ok rest
      else .error .assertionError
    else waitAckLoop reqId expected_ch rest

/-- Python loop `for item in data: if "u" in item: last_u = item["u"]; break`:
the update id of the first item that carries one. -/
def firstU : List Item → Option Int
  | [] => none
  | it :: rest =>
    match it.u with
    | some v => some v
    | none => firstU rest

/-- Embedding of `_round_try` inside `test_book_delta_sequence`: subscribe
(the request id is a parameter), wait for the ack, wait for the first data
payload, take the first update id as the cursor, then run the delta loop
with a fresh clock and the given budget.  The delta loop is line-for-line
the body of `find_consistent_delta` with the channel set {ch}. -/
def round_try (reqId : Int) (ch : String) (max_seconds : Nat) (evs : List Ev) :
    Except PyExc Bool := do
  let evs1 ← waitAckLoop reqId ch evs
  let pr ← waitFirstDataRest ch evs1
  match firstU (pr.1.data.getD []) with
  | none => return false
  | some lu => findConsistentDelta [ch] pr.2 (some lu) 0 max_seconds

/-- The observable outcome of `test_book_delta_sequence`: a pass, or the
explicit `pytest.xfail` marking the run inconclusive. -/
inductive TestOutcome where
  | passed
  | xfailed
deriving DecidableEq

/-- Embedding of the driver of `test_book_delta_sequence`: run the first
attempt with a 25 second budget; on a `false` result, unsubscribe (a send
whose failure is swallowed, with no observable effect here) and run a second
attempt with a fresh 25 second budget on the new stream; report how many
attempts ran.  Exceptions from either attempt propagate. -/
def test_book_delta_sequence (reqId1 reqId2 : Int) (ch : String)
    (evs1 evs2 : List Ev) : Except PyExc (TestOutcome × Nat) :=
  match round_try reqId1 ch 25 evs1 with
  | .error e => .error e
  | .ok true => .ok (.passed, 1)
  | .ok false =>
    match round_try reqId2 ch 25 evs2 with
    | .error e => .error e
    | .ok true => .ok (.passed, 2)
    | .ok false => .ok (.xfailed, 2)

/-! ## resources/functions/candlestick_utils.py -/

/-- Modelled from the spec: the alias table lives in
config_files/json/test_data_rest_candlestick.json, which is not part of the
source tree; the spec says the table maps alternate spellings (5m, 1h, 1D)
to canonical codes (M5, H1, D1) and that unmapped inputs pass through
unchanged. -/
def ALIASES : List (String × String) :=
  [("5m", "M5"), ("1h", "H1"), ("1D", "D1")]

/-- Embedding of `norm_tf`: look the timeframe up in the alias table and
return the input itself when no mapping is found. -/
def norm_tf (tf : String) : String :=
  (ALIASES.lookup tf).getD tf

/-- Embedding of `assert_time_in_window_with_alignment` as the predicate
deciding whether its assertion passes: the timestamp may undershoot the
window start by one timeframe interval, and must not exceed the window
end. -/
def assert_time_in_window_with_alignment (t_ms start_ts end_ts tf_ms : Int) : Bool :=
  let lower := start_ts - tf_ms
  decide (lower ≤ t_ms) && decide (t_ms ≤ end_ts)

/-! ## tests/conftest.py and helpers/config_manager.py -/

/-- The dynamic shapes `_cfg_get` dispatches on, plus the lazily-loading
closure that `helpers/config_manager.py` actually stores under the key
RUN_INI of CONFIGS. -/
inductive IniCfg where
  | pyNone
  | dict (m : List (String × String))
  | sectionProxy (m : List (String × String))
  | configParser (sections : List (String × List (String × String)))
  | lambdaThunk (run : Unit → IniCfg)

/-- Embedding of `_cfg_get`: duck-typed lookup over the supported shapes;
any unsupported shape (in particular the stored lambda) falls through to the
final `return default`. -/
def _cfg_get (cfg : IniCfg) (key : String) (dflt : Option String) : Option String :=
  match cfg with
  | .pyNone => dflt
  | .dict m =>
    match m.lookup key with
    | some v => some v
    | none => dflt
  | .sectionProxy m =>
    match m.lookup key with
    | some v => some v
    | none => dflt
  | .configParser sections =>
    match sections.lookup "env" with
    | some sec =>
      match sec.lookup key with
      | some v => some v
      | none => dflt
    | none => dflt
  | .lambdaThunk _ => dflt

/-- ASCII whitespace, as far as the configuration values use it. -/
def isSpaceChar (c : Char) : Bool :=
  c = ' ' ∨ c = '\t' ∨ c = '\n' ∨ c = '\r'

/-- Embedding of Python `str.strip()` on ASCII whitespace. -/
def pyStrip (s : String) : String :=
  ⟨((s.data.dropWhile isSpaceChar).reverse.dropWhile isSpaceChar).reverse⟩

/-- Embedding of Python `str.lower()` on ASCII letters. -/
def pyLower (s : String) : String :=
  ⟨s.data.map Char.toLower⟩

/-- Embedding of Python `str.upper()` on ASCII letters. -/
def pyUpper (s : String) : String :=
  ⟨s.data.map Char.toUpper⟩

/-- Embedding of Python `str.startswith`. -/
def pyStartsWith (s pre : String) : Bool :=
  pre.data.isPrefixOf s.data

/-- Embedding of Python `str.endswith`. -/
def pyEndsWith (s suf : String) : Bool :=
  suf.data.isSuffixOf s.data

/-- Python truthiness of an optional string. -/
def pyTruthy : Option String → Bool
  | some s => s ≠ ""
  | none => false

/-- Python `a or b` on optional strings. -/
def pyOrStr (a b : Option String) : Option String :=
  if pyTruthy a then a else b

/-- Numeric value of a digit list, most significant first. -/
def digitsVal (cs : List Char) : Nat :=
  cs.foldl (fun n c => n * 10 + (c.toNat - 48)) 0

/-- Embedding of Python `int(...)` on a stripped string: an optional sign
followed by digits, otherwise a ValueError (modelled as `none`). -/
def pyParseInt (s : String) : Option Int :=
  match (pyStrip s).data with
  | '-' :: rest => if digits1 rest then some (-(digitsVal rest : Int)) else none
  | '+' :: rest => if digits1 rest then some (digitsVal rest : Int) else none
  | cs => if digits1 cs then some (digitsVal cs : Int) else none

/-- Embedding of `_to_int`: parse, falling back to the default on any
failure; a missing value stringifies to "None", which fails to parse. -/
def _to_int (val : Option String) (dflt : Int) : Int :=
  match val with
  | some s => (pyParseInt s).getD dflt
  | none => dflt

/-- Embedding of `_sanitize_env`: strip and lowercase, defaulting to "prod";
an env outside the endpoint table raises ValueError. -/
def _sanitize_env (val : Option String) : Except String String :=
  let env :=
    match val with
    | some v => pyLower (pyStrip v)
    | none => "prod"
  if env = "prod" ∨ env = "uat" then .ok env
  else .error ("Unknown env: " ++ env)

/-- First truthy value among a list of candidates. -/
def firstTruthy : List (Option String) → Option String
  | [] => none
  | v :: rest => if pyTruthy v then v else firstTruthy rest

/-- Embedding of `_pick_instrument`: the first truthy value among the keys
instrument_name, instrument, symbol, stripped; otherwise the default
instrument. -/
def _pick_instrument (cfg : IniCfg) : String :=
  match firstTruthy [_cfg_get cfg "instrument_name" none,
      _cfg_get cfg "instrument" none, _cfg_get cfg "symbol" none] with
  | some v => pyStrip v
  | none => "BTCUSD-PERP"

/-- Embedding of `_sanitize_book_type`: strip and uppercase, and replace
anything outside the accepted set by the default subscription type. -/
def _sanitize_book_type (val : Option String) : String :=
  let x :=
    match val with
    | some v => pyUpper (pyStrip v)
    | none => "SNAPSHOT_AND_UPDATE"
  if x = "SNAPSHOT" ∨ x = "SNAPSHOT_AND_UPDATE" then x else "SNAPSHOT_AND_UPDATE"

/-- The REST endpoint table keyed by the sanitized env. -/
def REST_ENDPOINTS (env : String) : String :=
  if env = "prod" then "https://api.crypto.com/exchange/v1/"
  else "https://uat-api.3ona.co/exchange/v1/"

/-- The WS market endpoint table keyed by the sanitized env. -/
def WS_MARKET_ENDPOINTS (env : String) : String :=
  if env = "prod" then "wss://stream.crypto.com/exchange/v1/market"
  else "wss://uat-stream.3ona.co/exchange/v1/market"

/-- Embedding of `CONFIGS["RUN_INI"]` from helpers/config_manager.py: the
module stores a zero-argument lambda that would lazily parse run.ini, not
the parsed configuration itself. -/
def CONFIGS_RUN_INI (ini : List (String × List (String × String))) : IniCfg :=
  .lambdaThunk (fun _ => .configParser ini)

/-- The CLI overrides a pytest invocation can pass; `none` models an
unset option. -/
structure Cli where
  env : Option String := none
  instrument : Option String := none
  depth : Option String := none
  book_type : Option String := none
  book_freq : Option String := none
  server : Option String := none
deriving DecidableEq

/-- The resolved configuration record built by the `app_cfg` fixture. -/
structure AppCfg where
  env : String
  instrument_name : String
  depth : Int
  book_subscription_type : String
  book_update_frequency : Int
  rest_base : String
  ws_market_url : String
deriving DecidableEq

/-- Embedding of the session fixture `app_cfg`: resolve every key from the
CLI override, the value `_cfg_get` extracts from `CONFIGS["RUN_INI"]`, and
the built-in default, then derive the endpoint URLs and apply the optional
server override.  The ini parameter is the parsed content run.ini would
yield. -/
def app_cfg (ini : List (String × List (String × String))) (cli : Cli) :
    Except String AppCfg :=
  let ini_cfg := CONFIGS_RUN_INI ini
  match _sanitize_env (pyOrStr cli.env (_cfg_get ini_cfg "env" (some "prod"))) with
  | .error e => .error e
  | .ok env_val =>
    let instr_val :=
      match cli.instrument with
      | some s => if s ≠ "" then s else _pick_instrument ini_cfg
      | none => _pick_instrument ini_cfg
    let depth_val := _to_int (pyOrStr cli.depth (_cfg_get ini_cfg "depth" (some "50"))) 50
    let btype_val := _sanitize_book_type
      (pyOrStr cli.book_type (_cfg_get ini_cfg "book_subscription_type" (some "SNAPSHOT_AND_UPDATE")))
    let bfreq_val := _to_int
      (pyOrStr cli.book_freq (_cfg_get ini_cfg "book_update_frequency" (some "10"))) 10
    let urls0 := (REST_ENDPOINTS env_val, WS_MARKET_ENDPOINTS env_val)
    let urls :=
      match cli.server with
      | some sv =>
        if sv ≠ "" then
          let s := pyStrip sv
          if pyStartsWith s "ws://" ∨ pyStartsWith s "wss://" then (urls0.1, s)
          else if pyStartsWith s "http://" ∨ pyStartsWith s "https://" then
            ((if pyEndsWith s "/" then s else s ++ "/"), urls0.2)
          else urls0
        else urls0
      | none => urls0
    .ok {
      env := env_val
      instrument_name := if instr_val = "" then "BTCUSD-PERP" else instr_val
      depth := depth_val
      book_subscription_type := btype_val
      book_update_frequency := bfreq_val
      rest_base := urls.1
      ws_market_url := urls.2
    }

/-! ## tests/conftest.py: the rest_api fixture against
resources/services/rest_api.py -/

/-- The parameters accepted by `RestAPI.__init__` besides self. -/
def RestAPI_init_params : List String := ["base_url"]

/-- Python keyword binding: a call raises TypeError on the first keyword
argument the signature does not accept, and on a required parameter no
argument binds to. -/
def pyBindKwargs (params : List String) (kwargs : List String) : Except String Unit :=
  match kwargs.find? (fun k => !(params.contains k)) with
  | some k => .error ("TypeError: unexpected keyword argument " ++ k)
  | none =>
    match params.find? (fun p => !(kwargs.contains p)) with
    | some p => .error ("TypeError: missing required argument " ++ p)
    | none => .ok ()

/-- Embedding of the session fixture `rest_api`: it calls RestAPI with the
keyword arguments server, insecure, cafile (their values drawn from the
resolved configuration); Python binds the keyword names against the
signature of `RestAPI.__init__` before any constructor code runs. -/
def rest_api (cfg : AppCfg) : Except String Unit :=
  pyBindKwargs RestAPI_init_params
    (([("server", cfg.rest_base), ("insecure", "False"), ("cafile", "None")]).map Prod.fst)

/-! ## Concrete data used by the theorems below -/

/-- The channel key used by the concrete scenarios. -/
def chW : String := "book.BTCUSD-PERP.50"

/-- A well-formed scoped subscribe ack for request id 1 on `chW`. -/
def ackW : Msg :=
  { id := some 1, method := some "subscribe", code := some 0, channel := some chW }

/-- A first snapshot on `chW` whose single item carries update id 5. -/
def snapW : Msg :=
  { result := some { channel := some chW, data := some [{ u := some 5 }] } }

/-- A delta on `chW` whose previous-update id 5 matches the snapshot. -/
def matchW : Msg :=
  { result := some { channel := some chW, data := some [{ pu := some 5, u := some 6 }] } }

/-- A message carrying none of the inspected keys; the checker skips it,
but receiving it still advances the clock. -/
def junkW : Msg := {}

/-- A stream on which one consistency attempt succeeds. -/
def evsSuccessW : List Ev := [.deliver 0 ackW, .deliver 0 snapW, .deliver 1 matchW]

/-- A stream on which one consistency attempt runs out of budget: the late
junk message pushes the clock past the 25 second deadline with no match. -/
def evsFailW : List Ev := [.deliver 0 ackW, .deliver 0 snapW, .deliver 30 junkW]

/-- First message of the example stream of the claim: a delta carrying only
the update id 101. -/
def c1msgA : Msg :=
  { result := some { channel := some "book.BTCUSD-PERP.10", data := some [{ u := some 101 }] } }

/-- Second message of the example stream of the claim: a delta with
previous-update id 100 and update id 102. -/
def c1msgB : Msg :=
  { result := some { channel := some "book.BTCUSD-PERP.10", data := some [{ pu := some 100, u := some 102 }] } }

/-- The example stream of the claim, delivered well inside the budget,
followed by a late junk message that lets the deadline elapse. -/
def c1evs : List Ev := [.deliver 1 c1msgA, .deliver 1 c1msgB, .deliver 30 junkW]

/-- A stream whose first receive times out inside the budget. -/
def c2evs : List Ev := [Ev.tout]

/-- An ini content whose [env] section sets depth to 10. -/
def c3ini : List (String × List (String × String)) := [("env", [("depth", "10")])]

/-- The record `app_cfg` resolves when no CLI option is given: every field
is the built-in default, whatever run.ini contains. -/
def c3expected : AppCfg :=
  { env := "prod"
    instrument_name := "BTCUSD-PERP"
    depth := 50
    book_subscription_type := "SNAPSHOT_AND_UPDATE"
    book_update_frequency := 10
    rest_base := "https://api.crypto.com/exchange/v1/"
    ws_market_url := "wss://stream.crypto.com/exchange/v1/market" }

/-- Ack example of the claim in scoped shape, with the mandatory method and
code fields present. -/
def ackScoped : Msg :=
  { method := some "subscribe", code := some 0, channel := some "book.BTCUSD-PERP.10" }

/-- Ack example of the claim in generic shape with a subscription field. -/
def ackGeneric : Msg :=
  { method := some "subscribe", code := some 0, channel := some "book",
    subscription := some "book.BTCUSD-PERP.10" }

/-- Ack example of the claim on a different channel. -/
def ackWrongChannel : Msg :=
  { method := some "subscribe", code := some 0, channel := some "trade.BTCUSD-PERP" }

/-! ## Helper lemmas for the sequence consistency checker -/

theorem scanItems_fst : ∀ (items : List Item) (c : Option Int),
    (scanItems c items).1 = existsCursorMatch c items := by
  intro items
  induction items with
  | nil => intro c; rfl
  | cons it rest ih =>
    intro c
    by_cases h : puMatches it.pu c = true
    · simp [scanItems, existsCursorMatch, h]
    · simp only [Bool.not_eq_true] at h
      simp [scanItems, existsCursorMatch, h, ih]

theorem scanItems_snd : ∀ (items : List Item) (c : Option Int),
    existsCursorMatch c items = false → (scanItems c items).2 = foldCursor c items := by
  intro items
  induction items with
  | nil => intro c _; rfl
  | cons it rest ih =>
    intro c h
    by_cases hp : puMatches it.pu c = true
    · simp [existsCursorMatch, hp] at h
    · simp only [Bool.not_eq_true] at hp
      have hrest : existsCursorMatch (advCursor c it.u) rest = false := by
        simpa [existsCursorMatch, hp] using h
      simp [scanItems, foldCursor, hp, ih _ hrest]

theorem existsCursorMatch_append : ∀ (xs : List Item) (c : Option Int) (ys : List Item),
    existsCursorMatch c (xs ++ ys) =
      (existsCursorMatch c xs || existsCursorMatch (foldCursor c xs) ys) := by
  intro xs
  induction xs with
  | nil => intro c ys; simp [existsCursorMatch, foldCursor]
  | cons it rest ih =>
    intro c ys
    simp [existsCursorMatch, foldCursor, ih, Bool.or_assoc]

/-! ## Claim theorems -/

/-- C1 counterexample: on the example of the claim itself — initial cursor
100, then a delta carrying only u=101, then a delta with pu=100 and u=102,
all inside the budget — `find_consistent_delta` returns false, not true:
the cursor has already advanced to 101 when pu=100 is examined, so the
initial cursor can no longer be matched.  The second conjunct shows the
literal reading of the claim (pu equal to the initial cursor or to ANY
earlier-seen u) is satisfied by this stream, so the claimed equivalence
fails in the only-if direction at this input. -/
theorem find_consistent_delta_spec_example_fails :
    findConsistentDelta ["book.BTCUSD-PERP.10"] c1evs (some 100) 0 25 = Except.ok false ∧
    existsSeenMatch [100] (processedTrace ["book.BTCUSD-PERP.10"] c1evs 0 25) = true :=
  ⟨rfl, rfl⟩

/-- C1 amended: `find_consistent_delta` returns true exactly when some item
it processes within the time budget (delivered before the deadline, before
any receive timeout, on an accepted channel) carries a pu equal to the
ROLLING cursor: the most recently seen u, or the initial cursor while no u
has been seen yet.  Matching is not against arbitrary earlier-seen update
ids, and the example stream of the claim therefore yields false. -/
theorem find_consistent_delta_iff_rolling_cursor_match
    (channels : List String) (evs : List Ev) :
    ∀ (lastU : Option Int) (now deadline : Nat),
      findConsistentDelta channels evs lastU now deadline = Except.ok true ↔
        existsCursorMatch lastU (processedTrace channels evs now deadline) = true := by
  induction evs with
  | nil =>
    intro lastU now deadline
    by_cases hlt : now < deadline <;>
      simp [findConsistentDelta, processedTrace, existsCursorMatch, hlt]
  | cons ev rest ih =>
    intro lastU now deadline
    cases ev with
    | tout =>
      by_cases hlt : now < deadline <;>
        simp [findConsistentDelta, processedTrace, existsCursorMatch, hlt]
    | deliver dt m =>
      by_cases hlt : now < deadline
      · by_cases hacc : acceptChannel channels m.payload.channel = true
        · by_cases hm : existsCursorMatch lastU ((m.payload.data).getD []) = true
          · have h1 : (scanItems lastU ((m.payload.data).getD [])).1 = true := by
              rw [scanItems_fst]; exact hm
            simp [findConsistentDelta, processedTrace, hlt, hacc, h1,
              existsCursorMatch_append, hm]
          · have hm' : existsCursorMatch lastU ((m.payload.data).getD []) = false := by
              simpa using hm
            have h1 : (scanItems lastU ((m.payload.data).getD [])).1 = false := by
              rw [scanItems_fst]; exact hm'
            have h2 : (scanItems lastU ((m.payload.data).getD [])).2 =
                foldCursor lastU ((m.payload.data).getD []) :=
              scanItems_snd _ _ hm'
            simp [findConsistentDelta, processedTrace, hlt, hacc, h1, h2,
              existsCursorMatch_append, hm', ih]
        · have hacc' : acceptChannel channels m.payload.channel = false := by
            simpa using hacc
          simp [findConsistentDelta, processedTrace, hlt, hacc', ih]
      · simp [findConsistentDelta, processedTrace, existsCursorMatch, hlt]

/-- C2: when a receive inside the loop of `find_consistent_delta` times out
while the outer budget has not elapsed, the function does NOT continue the
loop: the `ws.recv(timeout=10)` call sits in no try/except, so the
asyncio.TimeoutError propagates out of the function (first conjunct).  The
function only returns false when messages keep arriving until the deadline
passes with no match (second conjunct). -/
theorem find_consistent_delta_timeout_uncaught :
    findConsistentDelta ["book.BTCUSD-PERP.50"] c2evs (some 100) 0 25 =
        Except.error PyExc.timeoutError ∧
    findConsistentDelta ["book.BTCUSD-PERP.50"] [Ev.deliver 30 junkW] (some 100) 0 25 =
        Except.ok false :=
  ⟨rfl, rfl⟩

/-- C3: the INI layer of the resolver is dead code.  With run.ini providing
depth=10 and no CLI override, `app_cfg` resolves every field to the built-in
default (first conjunct, depth = 50 rather than 10); in general the resolved
record never depends on the ini content at all, because
`CONFIGS["RUN_INI"]` holds a lazy-loading lambda that `_cfg_get`
duck-types past, falling through to the default for every key (second
conjunct). -/
theorem app_cfg_ini_layer_unread :
    app_cfg c3ini {} = Except.ok c3expected ∧
    ∀ (ini ini' : List (String × List (String × String))) (cli : Cli),
      app_cfg ini cli = app_cfg ini' cli :=
  ⟨rfl, fun _ _ _ => rfl⟩

/-- C4: the retry policy of `test_book_delta_sequence`: a successful first
attempt passes the scenario after one attempt; a failed first attempt is
followed by exactly one re-subscribed retry with a fresh 25 second budget,
whose success passes the scenario; two failed attempts yield the xfail
outcome, an ok result distinct from any propagated exception such as an
assertion failure. -/
theorem delta_sequence_retry_policy (r1 r2 : Int) (ch : String) (evs1 evs2 : List Ev) :
    (round_try r1 ch 25 evs1 = .ok true →
      test_book_delta_sequence r1 r2 ch evs1 evs2 = .ok (.passed, 1)) ∧
    (round_try r1 ch 25 evs1 = .ok false → round_try r2 ch 25 evs2 = .ok true →
      test_book_delta_sequence r1 r2 ch evs1 evs2 = .ok (.passed, 2)) ∧
    (round_try r1 ch 25 evs1 = .ok false → round_try r2 ch 25 evs2 = .ok false →
      test_book_delta_sequence r1 r2 ch evs1 evs2 = .ok (.xfailed, 2)) ∧
    (∀ e : PyExc,
      (Except.ok (TestOutcome.xfailed, 2) : Except PyExc (TestOutcome × Nat)) ≠ .error e) := by
  refine ⟨fun h1 => ?_, fun h1 h2 => ?_, fun h1 h2 => ?_, fun e h => by cases h⟩
  · simp [test_book_delta_sequence, h1]
  · simp [test_book_delta_sequence, h1, h2]
  · simp [test_book_delta_sequence, h1, h2]

/-- C4 witness: the three behaviours of the retry policy at concrete
streams: first attempt succeeds; first fails and the retry succeeds; both
fail and the scenario is marked xfail. -/
theorem delta_sequence_retry_policy_witness :
    test_book_delta_sequence 1 1 chW evsSuccessW evsFailW = .ok (.passed, 1) ∧
    test_book_delta_sequence 1 1 chW evsFailW evsSuccessW = .ok (.passed, 2) ∧
    test_book_delta_sequence 1 1 chW evsFailW evsFailW = .ok (.xfailed, 2) :=
  ⟨(delta_sequence_retry_policy 1 1 chW evsSuccessW evsFailW).1 rfl,
   (delta_sequence_retry_policy 1 1 chW evsFailW evsSuccessW).2.1 rfl rfl,
   (delta_sequence_retry_policy 1 1 chW evsFailW evsFailW).2.2.1 rfl rfl⟩

/-- C5: the subscribe-ack validator passes exactly when the method is
"subscribe", the code is 0, and the channel matches the expected channel
directly, through the subscription field, or as the bare "book"; it accepts
both ack shapes of the example and rejects the ack on the trade channel. -/
theorem subscribe_ack_characterization :
    (∀ (msg : Msg) (expected_ch : String),
      assert_subscribe_ack msg expected_ch = true ↔
        msg.method = some "subscribe" ∧ msg.code = some 0 ∧
          (msg.channel = some expected_ch ∨ msg.subscription = some expected_ch ∨
            msg.channel = some "book")) ∧
    assert_subscribe_ack ackScoped "book.BTCUSD-PERP.10" = true ∧
    assert_subscribe_ack ackGeneric "book.BTCUSD-PERP.10" = true ∧
    assert_subscribe_ack ackWrongChannel "book.BTCUSD-PERP.10" = false := by
  refine ⟨?_, by decide, by decide, by decide⟩
  intro msg expected_ch
  simp [assert_subscribe_ack, and_assoc, or_assoc]

/-- C6: the level-tuple validator accepts exactly the lists of three strings
whose elements match, in order, the signed-or-unsigned decimal pattern, the
unsigned decimal pattern and the unsigned integer pattern; it accepts the
positive example and rejects the negative-size and non-numeric examples. -/
theorem level_tuple_characterization :
    (∀ x : PyVal,
      is_level_tuple x = true ↔
        ∃ p s n, x = PyVal.listV [PyVal.str p, PyVal.str s, PyVal.str n] ∧
          isSignedDec p = true ∧ isUnsignedDec s = true ∧ isUnsignedInt n = true) ∧
    is_level_tuple (PyVal.listV [.str "50000.5", .str "1.2", .str "3"]) = true ∧
    is_level_tuple (PyVal.listV [.str "50000.5", .str "-1.2", .str "3"]) = false ∧
    is_level_tuple (PyVal.listV [.str "abc", .str "1", .str "3"]) = false := by
  refine ⟨?_, by decide, by decide, by decide⟩
  intro x
  constructor
  · intro h
    rcases x with s | n | xs
    · exact Bool.noConfusion h
    · exact Bool.noConfusion h
    · rcases xs with _ | ⟨a, _ | ⟨b, _ | ⟨c, _ | ⟨d, rest⟩⟩⟩⟩
      · exact Bool.noConfusion h
      · exact Bool.noConfusion h
      · exact Bool.noConfusion h
      · rcases a with p | n1 | l1
        · rcases b with s | n2 | l2
          · rcases c with n | n3 | l3
            · have h' : ((isSignedDec p && isUnsignedDec s) && isUnsignedInt n) = true := h
              simp only [Bool.and_eq_true] at h'
              exact ⟨p, s, n, rfl, h'.1.1, h'.1.2, h'.2⟩
            · exact Bool.noConfusion h
            · exact Bool.noConfusion h
          · exact Bool.noConfusion h
          · exact Bool.noConfusion h
        · exact Bool.noConfusion h
        · exact Bool.noConfusion h
      · exact Bool.noConfusion h
  · rintro ⟨p, s, n, rfl, h1, h2, h3⟩
    show ((isSignedDec p && isUnsignedDec s) && isUnsignedInt n) = true
    simp [h1, h2, h3]

/-- C7: the time-window validator passes exactly when the timestamp lies in
the window widened by one timeframe interval of early slack: start_ts minus
tf_ms at the low end, end_ts unchanged at the high end. -/
theorem time_window_alignment_characterization (t_ms start_ts end_ts tf_ms : Int) :
    assert_time_in_window_with_alignment t_ms start_ts end_ts tf_ms = true ↔
      start_ts - tf_ms ≤ t_ms ∧ t_ms ≤ end_ts := by
  simp [assert_time_in_window_with_alignment]

/-- C8: timeframe alias normalization is idempotent; already-canonical codes
come back unchanged, and any input without an alias-table entry passes
through unchanged. -/
theorem norm_tf_idempotent :
    (∀ x, norm_tf (norm_tf x) = norm_tf x) ∧
    (norm_tf "M5" = "M5" ∧ norm_tf "H1" = "H1" ∧ norm_tf "D1" = "D1") ∧
    (∀ x, ALIASES.lookup x = none → norm_tf x = x) := by
  refine ⟨?_, ⟨by decide, by decide, by decide⟩, fun x h => by simp [norm_tf, h]⟩
  intro x
  by_cases h1 : x = "5m"
  · subst h1; decide
  by_cases h2 : x = "1h"
  · subst h2; decide
  by_cases h3 : x = "1D"
  · subst h3; decide
  have e1 : (x == "5m") = false := beq_eq_false_iff_ne.mpr h1
  have e2 : (x == "1h") = false := beq_eq_false_iff_ne.mpr h2
  have e3 : (x == "1D") = false := beq_eq_false_iff_ne.mpr h3
  have hx : norm_tf x = x := by
    simp [norm_tf, ALIASES, List.lookup, e1, e2, e3]
  rw [hx]
  exact hx

/-- C8 witness: idempotence applied to the alias 1h, and pass-through
applied to an input absent from the alias table. -/
theorem norm_tf_idempotent_witness :
    norm_tf (norm_tf "1h") = norm_tf "1h" ∧ norm_tf "zzz" = "zzz" :=
  ⟨norm_tf_idempotent.1 "1h", norm_tf_idempotent.2.2 "zzz" (by decide)⟩

/-- C9: for every resolved configuration record, the rest_api fixture fails
with a TypeError before any constructor code runs: it calls RestAPI with the
keyword arguments server, insecure and cafile, none of which is the single
parameter base_url accepted by RestAPI, so no REST scenario can obtain a
client through this fixture. -/
theorem rest_api_fixture_type_error (cfg : AppCfg) :
    rest_api cfg = Except.error "TypeError: unexpected keyword argument server" :=
  rfl

/-- C10: the duplicated helper variants are equivalent: the level-tuple
validators agree on every input, the subscribe-ack validators pass and fail
on exactly the same message and expected channel, and the first-data waiters
return the same result on every stream. -/
theorem duplicated_helpers_equivalent :
    (∀ x, _is_level_tuple x = is_level_tuple x) ∧
    (∀ (msg : Msg) (expected_ch : String),
      _normalize_subscribe_ack msg expected_ch = assert_subscribe_ack msg expected_ch) ∧
    (∀ (expected_ch : String) (evs : List Ev),
      _wait_first_data expected_ch evs = wait_first_data expected_ch evs) := by
  refine ⟨fun x => rfl, fun msg e => rfl, fun e evs => ?_⟩
  induction evs with
  | nil => rfl
  | cons ev rest ih =>
    cases ev with
    | tout => rfl
    | deliver dt m =>
      simp only [_wait_first_data, wait_first_data]
      split
      · exact ih
      · split
        · rfl
        · exact ih

end CryptoQA
